import Mathlib

/-!
Verification of the CITSmart/Zabbix integration scripts.

This file gives a shallow embedding, in Lean 4, of the core logic of the
repository's two scripts:

* `close.py` — the event-to-ticket correlation algorithm
  (`find_ticket_for_zabbix_event` and its helpers) and the two-phase
  ticket-closure flow (`executar_fluxo_fechamento` of class `CITSmarTCloser`),
  modelled as pure functions over an abstract "server" record that supplies
  the responses of every remote call.
* `open.py` — the ticket-number extraction policy of `salvar_meus_pedidos`
  (ordered structured JSON fields, then an ordered cascade of regex patterns
  over the response text).

Remote I/O is modelled by oracle structures (`ZabbixServer`, `CitServer`)
holding the responses the remote systems return; transport or API errors are
the `none` / non-200 cases of those responses, exactly as the Python wrappers
convert them (every remote call in the source catches exceptions and turns
them into `None` returns or `sys.exit` calls, so a total Lean function is a
faithful model).  Strings are restricted to their ASCII behaviour (the data
the scripts exchange is ASCII), so Python's `\d` / `\s` are modelled as the
ASCII digit / whitespace classes.
-/

/-! ## Zabbix side of close.py: the ticket-marker regex

`TICKET_RE = re.compile(r"CITSmartTicketID\s*=\s*(\d+)")`, used with
`TICKET_RE.search(msg)`: leftmost match, and `group(1)` is the (greedy)
digit run.  Since nothing in the pattern follows the digit group and `=` and
digits are not whitespace, greedy matching without backtracking is equivalent
to Python's semantics here.
-/

/-- Python `\s` over ASCII: space, tab, newline, vertical tab, form feed,
carriage return. -/
def isPySpace (c : Char) : Bool :=
  c == ' ' || c == '\t' || c == '\n' || c == '\x0B' || c == '\x0C' || c == '\r'

/-- The literal key of `TICKET_RE`. -/
def keyChars : List Char :=
  ['C', 'I', 'T', 'S', 'm', 'a', 'r', 't', 'T', 'i', 'c', 'k', 'e', 't', 'I', 'D']

/-- Strip an expected literal from the front of the input; `none` on mismatch. -/
def stripLit : List Char → List Char → Option (List Char)
  | [], cs => some cs
  | _ :: _, [] => none
  | k :: ks, c :: cs => if c = k then stripLit ks cs else none

/-- After the literal key: `\s* = \s* (\d+)`; returns the captured digit run. -/
def matchTail (cs : List Char) : Option String :=
  match cs.dropWhile isPySpace with
  | '=' :: cs2 =>
      let ds := (cs2.dropWhile isPySpace).takeWhile Char.isDigit
      if ds.isEmpty then none else some (String.mk ds)
  | _ => none

/-- Attempt to match `TICKET_RE` anchored at the head of the input. -/
def tryMatchAt (cs : List Char) : Option String :=
  (stripLit keyChars cs).bind matchTail

/-- `TICKET_RE.search`: leftmost match of the pattern, returning `group(1)`. -/
def ticketSearch : List Char → Option String
  | [] => none
  | c :: cs =>
      match tryMatchAt (c :: cs) with
      | some t => some t
      | none => ticketSearch cs

/-! ## Zabbix side of close.py: events and correlation -/

/-- One entry of an event's `acknowledges` list (only the `message` field is
read by the scripts). -/
structure Ack where
  message : String
deriving DecidableEq

/-- A Zabbix event as used by close.py: `eventid`, `objectid` (the trigger
reference; the empty string models a missing/falsy value, which the code
treats identically), `value`, `clock`, and the acknowledgement list
(`event_obj.get("acknowledges") or []` makes an absent list the empty one). -/
structure ZEvent where
  eventid : String
  objectid : String
  value : String
  clock : Nat
  acknowledges : List Ack
deriving DecidableEq

/-- `extract_ticket_from_acks`: first acknowledgement whose message matches
`TICKET_RE`, returning the captured digits. -/
def extract_ticket_from_acks (ev : ZEvent) : Option String :=
  ev.acknowledges.findSome? (fun a => ticketSearch a.message.toList)

/-- Oracle for the Zabbix JSON-RPC endpoint.  `eventQuery i` is the `result`
of the `event.get` issued by `get_event_with_acks(i)`; `problemQuery t` is
the `result` of the windowed problem-event query issued by
`get_latest_problem_event_for_trigger(t)` (the code fixes its parameters:
`value = 1`, sorted by clock descending, `limit = 20`; the returned list is
whatever the server answers for that query).  `none` models any transport or
API error: `zabbix_api` catches every exception and converts JSON-RPC error
payloads to a `None` return. -/
structure ZabbixServer where
  eventQuery : String → Option (List ZEvent)
  problemQuery : String → Option (List ZEvent)

/-- `get_event_with_acks`: `None` on error or empty result, else the first
returned event. -/
def get_event_with_acks (srv : ZabbixServer) (event_id : String) : Option ZEvent :=
  match srv.eventQuery event_id with
  | none => none
  | some [] => none
  | some (e :: _) => some e

/-- `get_latest_problem_event_for_trigger`: `None` on error or empty window;
otherwise the first event of the window (newest first, as returned) whose
acknowledgements carry a ticket marker, falling back to the most recent
event of the window when none carries a marker. -/
def get_latest_problem_event_for_trigger (srv : ZabbixServer) (trigger_id : String) :
    Option ZEvent :=
  match srv.problemQuery trigger_id with
  | none => none
  | some [] => none
  | some (e0 :: rest) =>
      match (e0 :: rest).find? (fun ev => (extract_ticket_from_acks ev).isSome) with
      | some ev => some ev
      | none => some e0

/-- `find_ticket_for_zabbix_event`: returns `(ticket_id, problem_event_id)`.
Tries the event's own acknowledgements first; otherwise treats the event as a
recovery, reads its trigger reference (`objectid`) and consults the windowed
problem-event query. -/
def find_ticket_for_zabbix_event (srv : ZabbixServer) (event_id : String) :
    Option String × Option String :=
  match get_event_with_acks srv event_id with
  | none => (none, none)
  | some ev =>
      match extract_ticket_from_acks ev with
      | some t => (some t, some ev.eventid)
      | none =>
          if ev.objectid = "" then (none, none)
          else
            match get_latest_problem_event_for_trigger srv ev.objectid with
            | none => (none, none)
            | some lp => (extract_ticket_from_acks lp, some lp.eventid)

/-! ## CITSmart side of close.py: the two-phase closure flow

`executar_fluxo_fechamento` of class `CITSmarTCloser` is modelled as a pure
function of an oracle `CitServer` holding the responses of every remote call
of the flow, returning the list of remote operations performed (in order)
and the process exit code requested by `_die` (`none` = the flow ran to
completion).  `_die(msg)` defaults to exit code 2; `save_or_update` dies
with exit code 1.
-/

/-- The ticket DTO, restricted to the fields close.py reads or writes.
An `Option` field with value `none` models an absent key (for the fields the
code reads with `.get`); `id = none` models a response without an `"id"` key
(which `restore_request` rejects).  `originalPresent` models the presence of
the `"original"` key (`dto.setdefault("original", {})`). -/
structure DTO where
  id : Option Int
  idItemTrabalho : Option Int
  dtLastModification : Option String
  idUsuarioResponsavelAtual : Option Int
  idStatus : Option Int
  acaoFluxo : Option String
  idCategoriaSolucao : Option Int
  idCausaIncidente : Option Int
  solucaoResposta : Option String
  detalhamentoCausa : Option String
  view : Option Bool
  commentMode : Option Bool
  originalPresent : Bool
deriving DecidableEq

/-- A DTO with every key absent (the `{}` that `capturar_tarefa` returns when
its response is not JSON). -/
def emptyDTO : DTO :=
  ⟨none, none, none, none, none, none, none, none, none, none, none, none, false⟩

/-- Response of the `restoreRequest` endpoint: HTTP status plus the parsed
body (`none` = the body is not JSON, or not a JSON object; both make
`restore_request` die the same way). -/
structure RestoreResp where
  status : Nat
  body : Option DTO
deriving DecidableEq

/-- Oracle for the CITSmart REST endpoints used by one run of the closure
flow: the login outcome (`status_code == 200`), the two `restoreRequest`
responses, the statuses of `groupsForCapture`, `capturarTarefa`,
`validateConcurrentAccess` and the two `saveOrUpdate` calls, the parsed
bodies of the capture and validate responses, and the wall-clock string
`datetime.now()` renders (`_now_dt`). -/
structure CitServer where
  loginOk : Bool
  restore1 : RestoreResp
  restore2 : RestoreResp
  groupsStatus : Nat
  captureStatus : Nat
  captureBody : Option DTO
  validateStatus : Nat
  validateBody : Option Bool
  save1Status : Nat
  save2Status : Nat
  nowStr : String

/-- `restore_request`: dies (exit code 2) on non-200 status, on a non-JSON
body, and on a JSON body that is not a DTO (no `"id"` key); otherwise
returns the DTO. -/
def restore_request (resp : RestoreResp) : Except Nat DTO :=
  if resp.status ≠ 200 then Except.error 2
  else
    match resp.body with
    | none => Except.error 2
    | some dto => if dto.id.isSome then Except.ok dto else Except.error 2

/-- Python truthiness of an optional integer (`None` and `0` are falsy). -/
def optIntTruthy : Option Int → Bool
  | none => false
  | some n => !(n == 0)

/-- Python `a or d` for an optional string `a` (`None` and `""` are falsy). -/
def pyOrS (a : Option String) (d : String) : String :=
  match a with
  | some s => if s == "" then d else s
  | none => d

/-- Python `a or b` for an optional integer `a` (`None` and `0` are falsy). -/
def pyOrI (a : Option Int) (b : Int) : Int :=
  match a with
  | some n => if n == 0 then b else n
  | none => b

/-- `validate_concurrent_access`: `None` on a non-200 status or a non-JSON
body, otherwise the parsed body.  The flow discards this value. -/
def validate_concurrent_access (status : Nat) (body : Option Bool) : Option Bool :=
  if status ≠ 200 then none else body

/-- `aplicar_resolucao`: writes the resolution fields into the DTO; the
last-modification timestamp is overwritten with the current wall clock. -/
def aplicar_resolucao (dto : DTO) (status_id : Int) (acao_fluxo : String)
    (id_categoria_solucao : Int) (id_causa_incidente : Int)
    (solucao_html : String) (causa_html : String) (now : String) : DTO :=
  { dto with
    idStatus := some status_id
    acaoFluxo := some acao_fluxo
    idCategoriaSolucao := some id_categoria_solucao
    idCausaIncidente := some id_causa_incidente
    solucaoResposta := some solucao_html
    detalhamentoCausa := some causa_html
    view := some false
    commentMode := some false
    dtLastModification := some now }

/-- One remote operation of the closure flow, in the order performed.  The
`validate` operation records the timestamp submitted; each `save` records the
DTO submitted to `saveOrUpdate`. -/
inductive ROp where
  | login : ROp
  | restore : ROp
  | groups : ROp
  | capture : ROp
  | validate : String → ROp
  | save : DTO → ROp
deriving DecidableEq

/-- `executar_fluxo_fechamento`: login, first restore (deriving the work-item
id when the caller supplied none), groups-for-capture, capture, advisory
concurrent-access validation, first resolve+save, second restore, second
resolve+save.  Returns the trace of remote operations and the exit code of
the `_die` that stopped the flow (`none` on completion; the trailing audit
log write never fails and performs no remote call). -/
def executar_fluxo_fechamento (srv : CitServer) (ticket_id : Int)
    (id_item_trabalho : Option Int) (status_id : Int) (acao_fluxo : String)
    (id_categoria_solucao : Int) (id_causa_incidente : Int)
    (solucao_html : String) (causa_html : String) : List ROp × Option Nat :=
  if !srv.loginOk then ([ROp.login], some 2)
  else
    match restore_request srv.restore1 with
    | Except.error c => ([ROp.login, ROp.restore], some c)
    | Except.ok dto1 =>
      match
        (match id_item_trabalho with
         | none =>
             if optIntTruthy dto1.idItemTrabalho then Except.ok (dto1.idItemTrabalho.getD 0)
             else Except.error 2
         | some w => Except.ok w : Except Nat Int)
      with
      | Except.error c => ([ROp.login, ROp.restore], some c)
      | Except.ok wid =>
        let dto1a := { dto1 with id := some ticket_id, idItemTrabalho := some wid }
        if srv.groupsStatus ≠ 200 then ([ROp.login, ROp.restore, ROp.groups], some 2)
        else if srv.captureStatus ≠ 200 then
          ([ROp.login, ROp.restore, ROp.groups, ROp.capture], some 2)
        else
          let cap := srv.captureBody.getD emptyDTO
          let dt_cap := pyOrS cap.dtLastModification (pyOrS dto1a.dtLastModification srv.nowStr)
          -- the advisory validation result is computed and discarded, as in the code
          let _adv := validate_concurrent_access srv.validateStatus srv.validateBody
          let dto1b :=
            { aplicar_resolucao dto1a status_id acao_fluxo id_categoria_solucao
                id_causa_incidente solucao_html causa_html srv.nowStr with
              originalPresent := true }
          if srv.save1Status ≠ 200 then
            ([ROp.login, ROp.restore, ROp.groups, ROp.capture, ROp.validate dt_cap,
              ROp.save dto1b], some 1)
          else
            match restore_request srv.restore2 with
            | Except.error c =>
                ([ROp.login, ROp.restore, ROp.groups, ROp.capture, ROp.validate dt_cap,
                  ROp.save dto1b, ROp.restore], some c)
            | Except.ok dto2 =>
              let wid2 := pyOrI dto2.idItemTrabalho wid
              let dto2b :=
                { aplicar_resolucao
                    { dto2 with id := some ticket_id, idItemTrabalho := some wid2 }
                    status_id acao_fluxo id_categoria_solucao id_causa_incidente
                    solucao_html causa_html srv.nowStr with
                  originalPresent := true }
              if srv.save2Status ≠ 200 then
                ([ROp.login, ROp.restore, ROp.groups, ROp.capture, ROp.validate dt_cap,
                  ROp.save dto1b, ROp.restore, ROp.save dto2b], some 1)
              else
                ([ROp.login, ROp.restore, ROp.groups, ROp.capture, ROp.validate dt_cap,
                  ROp.save dto1b, ROp.restore, ROp.save dto2b], none)

/-- Number of `saveOrUpdate` calls in a trace. -/
def countSaves : List ROp → Nat
  | [] => 0
  | ROp.save _ :: rest => countSaves rest + 1
  | _ :: rest => countSaves rest

/-- Number of `validateConcurrentAccess` calls in a trace. -/
def countValidates : List ROp → Nat
  | [] => 0
  | ROp.validate _ :: rest => countValidates rest + 1
  | _ :: rest => countValidates rest

/-- Number of `restoreRequest` calls in a trace. -/
def countRestores : List ROp → Nat
  | [] => 0
  | ROp.restore :: rest => countRestores rest + 1
  | _ :: rest => countRestores rest

/-- Exit code of the whole process for a flow outcome: the `_die` code when
the flow died, else 0 (the script returns normally). -/
def processExitCode (r : List ROp × Option Nat) : Nat :=
  match r.2 with
  | some c => c
  | none => 0

/-- The usage check at the top of close.py's `main`: fewer than two
`sys.argv` entries (no subcommand) prints the usage text and exits 1. -/
def close_main_usage (argv : List String) : Option Nat :=
  if argv.length < 2 then some 1 else none

/-! ## open.py: ticket-number extraction of `salvar_meus_pedidos`

The response of `saveMeusPedidos` is either JSON (ordered candidate fields
`ticketNumber`, `ticket`, `number`, `id`; the first *present* field is taken
and then filtered by Python truthiness) or text, scanned by an ordered list
of regex patterns with `re.search(pattern, text, re.IGNORECASE)`; the first
pattern that matches wins and its first group is the ticket number.  A small
regular-expression engine covers exactly the constructs those patterns use:
literals, single-character classes, their Kleene star (every star in the
source patterns has a single-character body), sequencing, and one capture
group.  The engine enumerates match outcomes in Python's backtracking
priority order (greedy star first), so the head of the enumeration is the
match Python reports.
-/

/-- Regular expressions as used by the open.py patterns. -/
inductive RE where
  | eps : RE
  | ch : (Char → Bool) → RE
  | chStar : (Char → Bool) → RE
  | seq : RE → RE → RE
  | grp : RE → RE

/-- Suffixes reachable by a starred character class, greediest first. -/
def starDrops (p : Char → Bool) (s : List Char) : List (List Char) :=
  let runLen := (s.takeWhile p).length
  (List.range (runLen + 1)).map (fun j => s.drop (runLen - j))

/-- All ways to match a regex against the front of the input, in backtracking
priority order; each outcome is the remaining input plus the capture of the
group, when the group participated. -/
def mrun : RE → List Char → List (List Char × Option (List Char))
  | RE.eps, s => [(s, none)]
  | RE.ch _, [] => []
  | RE.ch p, c :: s => if p c then [(s, none)] else []
  | RE.chStar p, s => (starDrops p s).map (fun s2 => (s2, none))
  | RE.seq a b, s =>
      (mrun a s).flatMap
        (fun r1 => (mrun b r1.1).map (fun r2 => (r2.1, r1.2 <|> r2.2)))
  | RE.grp a, s =>
      (mrun a s).map (fun r => (r.1, some (s.take (s.length - r.1.length))))

/-- `re.search` over a char list: leftmost starting position with a match;
at that position, the first outcome in priority order.  Returns the group-1
capture of that match (every source pattern has a mandatory group, so the
capture always participates; an impossible capture-free match yields `[]`). -/
def reSearchList (r : RE) : List Char → Option (List Char)
  | [] =>
      match (mrun r []).head? with
      | some o => some (o.2.getD [])
      | none => none
  | c :: cs =>
      match (mrun r (c :: cs)).head? with
      | some o => some (o.2.getD [])
      | none => reSearchList r cs

/-- `re.search(pattern, text, re.IGNORECASE)` returning `group(1)`. -/
def reSearch (r : RE) (s : String) : Option String :=
  (reSearchList r s.toList).map String.mk

/-- Case-insensitive literal character (`re.IGNORECASE`). -/
def litI (c : Char) : RE := RE.ch (fun x => x.toLower == c.toLower)

/-- Case-insensitive literal string. -/
def strI (s : String) : RE := s.toList.foldr (fun c acc => RE.seq (litI c) acc) RE.eps

/-- The capture group `(\d+)` shared by every pattern. -/
def grpDigits : RE := RE.grp (RE.seq (RE.ch Char.isDigit) (RE.chStar Char.isDigit))

/-- Pattern 1: `class=\\#33#text-citsmart\\#33#\s*>\s*(\d+)\s*</h[23]>`
(the doubled backslash is a literal backslash). -/
def pat1 : RE :=
  RE.seq (strI "class=\\#33#text-citsmart\\#33#")
    (RE.seq (RE.chStar isPySpace)
      (RE.seq (litI '>')
        (RE.seq (RE.chStar isPySpace)
          (RE.seq grpDigits
            (RE.seq (RE.chStar isPySpace)
              (RE.seq (strI "</h")
                (RE.seq (RE.ch (fun c => c == '2' || c == '3')) (litI '>'))))))))

/-- Pattern 2: `<h2[^>]*class="[^"]*text-citsmart[^"]*"[^>]*>\s*(\d+)\s*</h2>`. -/
def pat2 : RE :=
  RE.seq (strI "<h2")
    (RE.seq (RE.chStar (fun c => !(c == '>')))
      (RE.seq (strI "class=\"")
        (RE.seq (RE.chStar (fun c => !(c == '\"')))
          (RE.seq (strI "text-citsmart")
            (RE.seq (RE.chStar (fun c => !(c == '\"')))
              (RE.seq (litI '\"')
                (RE.seq (RE.chStar (fun c => !(c == '>')))
                  (RE.seq (litI '>')
                    (RE.seq (RE.chStar isPySpace)
                      (RE.seq grpDigits
                        (RE.seq (RE.chStar isPySpace) (strI "</h2>"))))))))))))

/-- Pattern 3: `<span[^>]*class="[^"]*label-numero[^"]*"[^>]*>Ticket</span>`
followed by the `<h2 ...>` shape of pattern 2 with `</h[23]>` at the end. -/
def pat3 : RE :=
  RE.seq (strI "<span")
    (RE.seq (RE.chStar (fun c => !(c == '>')))
      (RE.seq (strI "class=\"")
        (RE.seq (RE.chStar (fun c => !(c == '\"')))
          (RE.seq (strI "label-numero")
            (RE.seq (RE.chStar (fun c => !(c == '\"')))
              (RE.seq (litI '\"')
                (RE.seq (RE.chStar (fun c => !(c == '>')))
                  (RE.seq (strI ">Ticket</span><h2")
                    (RE.seq (RE.chStar (fun c => !(c == '>')))
                      (RE.seq (strI "class=\"")
                        (RE.seq (RE.chStar (fun c => !(c == '\"')))
                          (RE.seq (strI "text-citsmart")
                            (RE.seq (RE.chStar (fun c => !(c == '\"')))
                              (RE.seq (litI '\"')
                                (RE.seq (RE.chStar (fun c => !(c == '>')))
                                  (RE.seq (litI '>')
                                    (RE.seq (RE.chStar isPySpace)
                                      (RE.seq grpDigits
                                        (RE.seq (RE.chStar isPySpace)
                                          (RE.seq (strI "</h")
                                            (RE.seq (RE.ch (fun c => c == '2' || c == '3'))
                                              (litI '>'))))))))))))))))))))))

/-- The class `[:\s]`. -/
def isColonOrSpace (c : Char) : Bool := c == ':' || isPySpace c

/-- Pattern 4: `ticket[:\s]*(\d+)`. -/
def pat4 : RE := RE.seq (strI "ticket") (RE.seq (RE.chStar isColonOrSpace) grpDigits)

/-- Pattern 5: `ticketNumber[:\s]*(\d+)`. -/
def pat5 : RE := RE.seq (strI "ticketNumber") (RE.seq (RE.chStar isColonOrSpace) grpDigits)

/-- Pattern 6: `number[:\s]*(\d+)`. -/
def pat6 : RE := RE.seq (strI "number") (RE.seq (RE.chStar isColonOrSpace) grpDigits)

/-- Pattern 7: `id[:\s]*(\d+)`. -/
def pat7 : RE := RE.seq (strI "id") (RE.seq (RE.chStar isColonOrSpace) grpDigits)

/-- Pattern 8: `(\d{5,})` — five digits followed by a greedy digit run. -/
def pat8 : RE :=
  RE.grp (RE.seq (RE.ch Char.isDigit)
    (RE.seq (RE.ch Char.isDigit)
      (RE.seq (RE.ch Char.isDigit)
        (RE.seq (RE.ch Char.isDigit)
          (RE.seq (RE.ch Char.isDigit) (RE.chStar Char.isDigit))))))

/-- The prioritized pattern list of `salvar_meus_pedidos`, in source order. -/
def patterns : List RE := [pat1, pat2, pat3, pat4, pat5, pat6, pat7, pat8]

/-- JSON scalar values as they occur in the save response. -/
inductive JVal where
  | jstr : String → JVal
  | jnum : Int → JVal
  | jbool : Bool → JVal
  | jnull : JVal
deriving DecidableEq

/-- Python truthiness of a JSON scalar. -/
def jtruthy : JVal → Bool
  | JVal.jstr s => !(s == "")
  | JVal.jnum n => !(n == 0)
  | JVal.jbool b => b
  | JVal.jnull => false

/-- The body of the `saveMeusPedidos` response: a parsed JSON object, or raw
text when `response.json()` raises `JSONDecodeError`. -/
inductive RBody where
  | jsonBody : List (String × JVal) → RBody
  | textBody : String → RBody

/-- Key lookup in a JSON object (`key in dict` plus `dict[key]`). -/
def jsonLookup (fields : List (String × JVal)) (k : String) : Option JVal :=
  (fields.find? (fun kv => kv.1 == k)).map (fun kv => kv.2)

/-- The `if "ticketNumber" in ... elif ... elif ... elif ...` chain: value of
the first present candidate key. -/
def pickTicketField (fields : List (String × JVal)) : Option JVal :=
  match jsonLookup fields "ticketNumber" with
  | some v => some v
  | none =>
    match jsonLookup fields "ticket" with
    | some v => some v
    | none =>
      match jsonLookup fields "number" with
      | some v => some v
      | none => jsonLookup fields "id"

/-- The text fallback: first pattern (in priority order) whose search
matches, returning its group-1 capture. -/
def extract_text (s : String) : Option String :=
  patterns.findSome? (fun p => reSearch p s)

/-- The ticket-number extraction of `salvar_meus_pedidos` on a status-200
response body: on JSON, the first present candidate field, kept only when
truthy (`if ticket_number:`); on text, the pattern cascade.  `none` models
`(response, None)` — the ticket id is reported unknown, the call still
returns normally. -/
def salvar_meus_pedidos_extract : RBody → Option JVal
  | RBody.jsonBody f =>
      match pickTicketField f with
      | some v => if jtruthy v then some v else none
      | none => none
  | RBody.textBody s => (extract_text s).map JVal.jstr

/-! ## Auxiliary predicates and concrete instances used by the theorems -/

/-- Conditions under which the closure flow reaches its first `saveOrUpdate`
call: login succeeded, the first restore produced a DTO, the work-item id is
available (supplied by the caller, or truthy in the restored DTO), and the
groups and capture calls returned 200. -/
def reachesFirstSave (srv : CitServer) (wia : Option Int) : Prop :=
  srv.loginOk = true ∧ srv.groupsStatus = 200 ∧ srv.captureStatus = 200 ∧
  ∃ dto1, restore_request srv.restore1 = Except.ok dto1 ∧
    (wia = none → optIntTruthy dto1.idItemTrabalho = true)

/-- Conditions under which the closure flow reaches its second `saveOrUpdate`
call: it reached the first one, the first save returned 200 and the second
restore produced a DTO. -/
def reachesSecondSave (srv : CitServer) (wia : Option Int) : Prop :=
  reachesFirstSave srv wia ∧ srv.save1Status = 200 ∧
  ∃ dto2, restore_request srv.restore2 = Except.ok dto2

/-- An event all of whose acknowledgement messages have the closure-ack
format `CITSmartTicketClosed=<digits>` written by close.py's `main` after a
successful closure. -/
def closureAcksOnly (ev : ZEvent) : Prop :=
  ∀ a ∈ ev.acknowledges, ∃ d : List Char, d.all Char.isDigit = true ∧
    a.message.toList = "CITSmartTicketClosed=".toList ++ d

/-- A DTO as the first restore could return it: `id` present, a truthy
work-item id, and a last-modification timestamp. -/
def dtoR1 : DTO :=
  { emptyDTO with
    id := some 5001
    idItemTrabalho := some 42
    dtLastModification := some "2026-10-11 09:00:00" }

/-- A DTO as the second restore could return it, with a different work-item
id. -/
def dtoR2 : DTO :=
  { emptyDTO with id := some 5001, idItemTrabalho := some 43 }

/-- A CITSmart server on which every call of the closure flow succeeds. -/
def srvOK : CitServer :=
  { loginOk := true
    restore1 := ⟨200, some dtoR1⟩
    restore2 := ⟨200, some dtoR2⟩
    groupsStatus := 200
    captureStatus := 200
    captureBody := none
    validateStatus := 200
    validateBody := some true
    save1Status := 200
    save2Status := 200
    nowStr := "2026-10-12 00:00:00" }

/-- The same server with a failing login. -/
def srvAuthFail : CitServer := { srvOK with loginOk := false }

/-- The same server with the first `saveOrUpdate` returning HTTP 500. -/
def srvSave1Fail : CitServer := { srvOK with save1Status := 500 }

/-- The same server whose concurrent-access validation reports a failure
(stale timestamp). -/
def srvStaleValidation : CitServer := { srvOK with validateBody := some false }

/-- A problem event carrying the ticket marker `CITSmartTicketID=7003`. -/
def ev150 : ZEvent := ⟨"150", "T1", "1", 90, [⟨"CITSmartTicketID=7003"⟩]⟩

/-- A problem event with no marker in its acknowledgements. -/
def ev140 : ZEvent := ⟨"140", "T1", "1", 80, [⟨"note"⟩]⟩

/-- A recovery event on trigger `T1` with no acknowledgements. -/
def ev200 : ZEvent := ⟨"200", "T1", "0", 100, []⟩

/-- A Zabbix server: fetching event 200 yields the recovery `ev200`, and the
problem window of trigger `T1` holds `ev150` (marked) then `ev140`. -/
def zbxSrvA : ZabbixServer :=
  ⟨fun eid => if eid = "200" then some [ev200] else none,
   fun t => if t = "T1" then some [ev150, ev140] else none⟩

/-- A Zabbix server whose problem window for `T1` holds only unmarked
events. -/
def zbxSrvB : ZabbixServer :=
  ⟨fun eid => if eid = "200" then some [ev200] else none,
   fun t => if t = "T1" then some [ev140] else none⟩

/-- A Zabbix server on which every call errors. -/
def zbxSrvErr : ZabbixServer := ⟨fun _ => none, fun _ => none⟩

/-! ## Theorems -/

/-- C2: for a recovery event (own acknowledgements carry no marker) whose
trigger's problem-event window query returns a list containing a marked
event, `find_ticket_for_zabbix_event` returns the ticket id and event id of
the first event, in the order the query returned them, whose
acknowledgements carry a ticket marker. -/
theorem resolve_recovery_first_marked_event (srv : ZabbixServer) (eid : String)
    (ev e : ZEvent) (evs : List ZEvent) (t : String)
    (h1 : get_event_with_acks srv eid = some ev)
    (h2 : extract_ticket_from_acks ev = none)
    (h3 : ev.objectid ≠ "")
    (h4 : srv.problemQuery ev.objectid = some evs)
    (h5 : evs.find? (fun x => (extract_ticket_from_acks x).isSome) = some e)
    (h6 : extract_ticket_from_acks e = some t) :
    find_ticket_for_zabbix_event srv eid = (some t, some e.eventid) := by
  cases evs with
  | nil => simp at h5
  | cons e0 rest =>
      simp [find_ticket_for_zabbix_event, get_latest_problem_event_for_trigger,
        h1, h2, h3, h4, h5, h6]

/-- Witness for C2: the documented scenario — recovery event 200 on trigger
T1, most recent marked problem event 150 with `CITSmartTicketID=7003`. -/
theorem resolve_recovery_first_marked_event_witness :
    find_ticket_for_zabbix_event zbxSrvA "200" = (some "7003", some "150") := by
  have h := resolve_recovery_first_marked_event zbxSrvA "200" ev200 ev150 [ev150, ev140]
    "7003" (by decide) (by decide) (by decide) (by decide) (by decide) (by decide)
  simpa using h

/-- C5: when the problem-event window is non-empty and no event in it
carries a ticket marker, `find_ticket_for_zabbix_event` returns no ticket id
together with the id of the most recent (first returned) problem event. -/
theorem resolve_no_marker_returns_latest (srv : ZabbixServer) (eid : String)
    (ev e0 : ZEvent) (rest : List ZEvent)
    (h1 : get_event_with_acks srv eid = some ev)
    (h2 : extract_ticket_from_acks ev = none)
    (h3 : ev.objectid ≠ "")
    (h4 : srv.problemQuery ev.objectid = some (e0 :: rest))
    (h5 : ∀ x ∈ e0 :: rest, extract_ticket_from_acks x = none) :
    find_ticket_for_zabbix_event srv eid = (none, some e0.eventid) := by
  have hfind : (e0 :: rest).find? (fun x => (extract_ticket_from_acks x).isSome) = none := by
    rw [List.find?_eq_none]
    intro x hx
    simp [h5 x hx]
  simp [find_ticket_for_zabbix_event, get_latest_problem_event_for_trigger,
    h1, h2, h3, h4, hfind, h5 e0 (by simp)]

/-- Witness for C5: a window holding only the unmarked problem event 140. -/
theorem resolve_no_marker_returns_latest_witness :
    find_ticket_for_zabbix_event zbxSrvB "200" = (none, some "140") := by
  have h := resolve_no_marker_returns_latest zbxSrvB "200" ev200 ev140 []
    (by decide) (by decide) (by decide) (by decide) (by decide)
  simpa using h

/-- C6: correlation degrades to `(None, None)` instead of propagating
failures — when the initial event fetch fails (transport/API error or empty
result), or when the event is unmarked and its trigger's window query fails
or yields nothing, `find_ticket_for_zabbix_event` returns `(none, none)`.
(The Lean model is a total function, mirroring the source, where
`zabbix_api` catches every exception and returns `None`.) -/
theorem resolve_errors_degrade_to_none (srv : ZabbixServer) (eid : String)
    (h : get_event_with_acks srv eid = none ∨
         ∃ ev, get_event_with_acks srv eid = some ev ∧
           extract_ticket_from_acks ev = none ∧ ev.objectid ≠ "" ∧
           get_latest_problem_event_for_trigger srv ev.objectid = none) :
    find_ticket_for_zabbix_event srv eid = (none, none) := by
  rcases h with h | ⟨ev, h1, h2, h3, h4⟩
  · simp [find_ticket_for_zabbix_event, h]
  · simp [find_ticket_for_zabbix_event, h1, h2, h3, h4]

/-- Witness for C6: a server on which every remote call errors. -/
theorem resolve_errors_degrade_to_none_witness :
    find_ticket_for_zabbix_event zbxSrvErr "7" = (none, none) :=
  resolve_errors_degrade_to_none zbxSrvErr "7" (Or.inl (by decide))

/-- C1: on every successful run of `executar_fluxo_fechamento` the trace is
exactly login, restore, groups, capture, validate, save, restore, save —
two restore+resolve+save cycles, two saves, two restores — and when
authentication fails the flow stops with only the login call, so zero saves
are performed. -/
theorem close_two_cycles_auth_zero_saves (srv : CitServer) (tid : Int)
    (wia : Option Int) (sid : Int) (af : String) (ics ici : Int) (sol cau : String)
    (tr : List ROp) (ec : Option Nat)
    (h : executar_fluxo_fechamento srv tid wia sid af ics ici sol cau = (tr, ec)) :
    (ec = none → countSaves tr = 2 ∧ countRestores tr = 2 ∧
      ∃ dt d1 d2, tr = [ROp.login, ROp.restore, ROp.groups, ROp.capture,
        ROp.validate dt, ROp.save d1, ROp.restore, ROp.save d2])
    ∧ (srv.loginOk = false → countSaves tr = 0) := by
  simp only [executar_fluxo_fechamento] at h
  repeat' split at h
  all_goals (injection h with h1 h2; subst h1; subst h2)
  all_goals constructor
  all_goals intro hx
  all_goals simp_all [countSaves, countRestores]

/-- Witness for C1: a fully successful server run has two saves; an
authentication failure leaves zero saves. -/
theorem close_two_cycles_auth_zero_saves_witness :
    (executar_fluxo_fechamento srvOK 5001 none 4 "E" 13 6 "s" "c").2 = none
    ∧ countSaves (executar_fluxo_fechamento srvOK 5001 none 4 "E" 13 6 "s" "c").1 = 2
    ∧ countSaves (executar_fluxo_fechamento srvAuthFail 5001 none 4 "E" 13 6 "s" "c").1 = 0 := by
  have hA := close_two_cycles_auth_zero_saves srvOK 5001 none 4 "E" 13 6 "s" "c"
    (executar_fluxo_fechamento srvOK 5001 none 4 "E" 13 6 "s" "c").1
    (executar_fluxo_fechamento srvOK 5001 none 4 "E" 13 6 "s" "c").2 rfl
  have hB := close_two_cycles_auth_zero_saves srvAuthFail 5001 none 4 "E" 13 6 "s" "c"
    (executar_fluxo_fechamento srvAuthFail 5001 none 4 "E" 13 6 "s" "c").1
    (executar_fluxo_fechamento srvAuthFail 5001 none 4 "E" 13 6 "s" "c").2 rfl
  exact ⟨rfl, (hA.1 rfl).1, hB.2 rfl⟩

/-- C3: if a `saveOrUpdate` returns a non-success status, the flow dies with
the save-failure exit code 1 and performs no further remote call: a failing
first save leaves a trace ending at that save (the second
restore+resolve+save cycle is never attempted), and a failing second save
leaves a trace ending at the second save. -/
theorem save_failure_aborts_before_second_cycle (srv : CitServer) (tid : Int)
    (wia : Option Int) (sid : Int) (af : String) (ics ici : Int) (sol cau : String)
    (tr : List ROp) (ec : Option Nat)
    (h : executar_fluxo_fechamento srv tid wia sid af ics ici sol cau = (tr, ec)) :
    (reachesFirstSave srv wia → srv.save1Status ≠ 200 →
        ec = some 1 ∧ ∃ dt d1, tr = [ROp.login, ROp.restore, ROp.groups, ROp.capture,
          ROp.validate dt, ROp.save d1])
    ∧ (reachesSecondSave srv wia → srv.save2Status ≠ 200 →
        ec = some 1 ∧ ∃ dt d1 d2, tr = [ROp.login, ROp.restore, ROp.groups, ROp.capture,
          ROp.validate dt, ROp.save d1, ROp.restore, ROp.save d2]) := by
  simp only [executar_fluxo_fechamento] at h
  repeat' split at h
  all_goals (injection h with h1 h2; subst h1; subst h2)
  all_goals constructor
  all_goals intro hx hy
  all_goals simp_all [reachesFirstSave, reachesSecondSave]
  all_goals (cases wia <;> simp_all)

/-- Witness for C3: with the first save returning HTTP 500, the flow exits
with code 1 after exactly one save. -/
theorem save_failure_aborts_before_second_cycle_witness :
    (executar_fluxo_fechamento srvSave1Fail 5001 none 4 "E" 13 6 "s" "c").2 = some 1
    ∧ countSaves (executar_fluxo_fechamento srvSave1Fail 5001 none 4 "E" 13 6 "s" "c").1 = 1 := by
  have h := save_failure_aborts_before_second_cycle srvSave1Fail 5001 none 4 "E" 13 6 "s" "c"
    (executar_fluxo_fechamento srvSave1Fail 5001 none 4 "E" 13 6 "s" "c").1
    (executar_fluxo_fechamento srvSave1Fail 5001 none 4 "E" 13 6 "s" "c").2 rfl
  have hr : reachesFirstSave srvSave1Fail none :=
    ⟨rfl, rfl, rfl, dtoR1, rfl, fun _ => rfl⟩
  obtain ⟨hec, dt, d1, htr⟩ := h.1 hr (by decide)
  refine ⟨hec, ?_⟩
  rw [htr]
  simp [countSaves]

/-- Counterexample for C4: a server whose concurrent-access validation
reports a failure (`some false`), yet the flow completes and performs both
saves — a stale validation does not abort the phase, contradicting the
claim. -/
theorem validation_failure_does_not_abort_counterexample :
    validate_concurrent_access srvStaleValidation.validateStatus
        srvStaleValidation.validateBody = some false
    ∧ (executar_fluxo_fechamento srvStaleValidation 5001 none 4 "E" 13 6 "s" "c").2 = none
    ∧ countSaves (executar_fluxo_fechamento srvStaleValidation 5001 none 4 "E" 13 6 "s" "c").1 = 2 :=
  ⟨rfl, rfl, rfl⟩

/-- C4 (amended): `validateConcurrentAccess` is called at most once per run,
only before the first phase's save (never in the second phase), and it is
purely advisory: the validation response — status and body — has no effect
whatsoever on the flow's trace or outcome, so a failed validation does not
abort the phase and the save is still performed. -/
theorem validation_single_advisory_before_first_save (srv : CitServer) (tid : Int)
    (wia : Option Int) (sid : Int) (af : String) (ics ici : Int) (sol cau : String)
    (a a2 : Nat) (b b2 : Option Bool) (tr : List ROp) (ec : Option Nat)
    (h : executar_fluxo_fechamento srv tid wia sid af ics ici sol cau = (tr, ec)) :
    (executar_fluxo_fechamento { srv with validateStatus := a, validateBody := b }
        tid wia sid af ics ici sol cau =
      executar_fluxo_fechamento { srv with validateStatus := a2, validateBody := b2 }
        tid wia sid af ics ici sol cau)
    ∧ countValidates tr ≤ 1
    ∧ (0 < countSaves tr → ∃ dt rest, tr = ROp.login :: ROp.restore :: ROp.groups ::
        ROp.capture :: ROp.validate dt :: rest ∧ countValidates rest = 0) := by
  have hm : countValidates tr ≤ 1 ∧
      (0 < countSaves tr → ∃ dt rest, tr = ROp.login :: ROp.restore :: ROp.groups ::
        ROp.capture :: ROp.validate dt :: rest ∧ countValidates rest = 0) := by
    simp only [executar_fluxo_fechamento] at h
    repeat' split at h
    all_goals (injection h with h1 h2; subst h1; subst h2)
    all_goals refine ⟨by simp [countValidates], fun hx => ?_⟩
    all_goals first
      | exact ⟨_, _, rfl, rfl⟩
      | (exfalso; simp [countSaves] at hx)
  exact ⟨by cases srv; rfl, hm.1, hm.2⟩

/-- Witness for C4 (amended): flipping the validation response between a
reported failure and a reported success (or a broken status) leaves the run
identical, and the successful run contains a single validation call. -/
theorem validation_single_advisory_before_first_save_witness :
    executar_fluxo_fechamento { srvOK with validateStatus := 200, validateBody := some false }
        5001 none 4 "E" 13 6 "s" "c" =
      executar_fluxo_fechamento { srvOK with validateStatus := 500, validateBody := some true }
        5001 none 4 "E" 13 6 "s" "c"
    ∧ countValidates (executar_fluxo_fechamento srvOK 5001 none 4 "E" 13 6 "s" "c").1 ≤ 1 := by
  have h := validation_single_advisory_before_first_save srvOK 5001 none 4 "E" 13 6 "s" "c"
    200 500 (some false) (some true)
    (executar_fluxo_fechamento srvOK 5001 none 4 "E" 13 6 "s" "c").1
    (executar_fluxo_fechamento srvOK 5001 none 4 "E" 13 6 "s" "c").2 rfl
  exact ⟨h.1, h.2.1⟩

/-- C7: calling the flow with `id_item_trabalho = None` when the first
restore supplies a truthy work-item id `w1`: both cycles use `w1`, except
that when the second restore supplies a truthy work-item id of its own, the
second cycle's save uses the second restore's value. -/
theorem workitem_derived_once_second_restore_wins (srv : CitServer) (tid : Int)
    (sid : Int) (af : String) (ics ici : Int) (sol cau : String)
    (dto1 dto2 : DTO) (w1 : Int) (tr : List ROp)
    (h1 : restore_request srv.restore1 = Except.ok dto1)
    (h2 : dto1.idItemTrabalho = some w1) (h3 : ¬ w1 = 0)
    (h4 : restore_request srv.restore2 = Except.ok dto2)
    (h : executar_fluxo_fechamento srv tid none sid af ics ici sol cau = (tr, none)) :
    ∃ dt d1 d2, tr = [ROp.login, ROp.restore, ROp.groups, ROp.capture, ROp.validate dt,
        ROp.save d1, ROp.restore, ROp.save d2]
      ∧ d1.idItemTrabalho = some w1
      ∧ d2.idItemTrabalho = some (pyOrI dto2.idItemTrabalho w1)
      ∧ (dto2.idItemTrabalho = none → d2.idItemTrabalho = some w1)
      ∧ (∀ w2, dto2.idItemTrabalho = some w2 → ¬ w2 = 0 → d2.idItemTrabalho = some w2) := by
  have hb : (w1 == 0) = false := by simp [h3]
  simp only [executar_fluxo_fechamento, h1, h4, h2, optIntTruthy, hb, Bool.not_false,
    if_true, Option.getD_some] at h
  repeat' split at h
  all_goals (injection h with ha hc; first | (exact Option.noConfusion hc) | (subst ha))
  refine ⟨_, _, _, rfl, ?_, ?_, ?_, ?_⟩
  · simp [aplicar_resolucao]
  · simp [aplicar_resolucao]
  · intro hn; simp [aplicar_resolucao, pyOrI, hn]
  · intro w2 hw2 hw2n; simp [aplicar_resolucao, pyOrI, hw2, hw2n]

/-- Witness for C7: the documented scenario — restore returns work item 42;
the first save uses 42 and, the second restore supplying 43, the second save
uses 43. -/
theorem workitem_derived_once_second_restore_wins_witness :
    ∃ dt d1 d2, (executar_fluxo_fechamento srvOK 5001 none 4 "E" 13 6 "s" "c").1 =
        [ROp.login, ROp.restore, ROp.groups, ROp.capture, ROp.validate dt,
         ROp.save d1, ROp.restore, ROp.save d2]
      ∧ d1.idItemTrabalho = some 42 ∧ d2.idItemTrabalho = some 43 := by
  have h := workitem_derived_once_second_restore_wins srvOK 5001 4 "E" 13 6 "s" "c"
    dtoR1 dtoR2 42
    (executar_fluxo_fechamento srvOK 5001 none 4 "E" 13 6 "s" "c").1
    rfl rfl (by decide) rfl rfl
  obtain ⟨dt, d1, d2, htr, hd1, hd2, _, _⟩ := h
  exact ⟨dt, d1, d2, htr, hd1, by rw [hd2]; decide⟩

/-- Counterexample for C9: the save-failure exit code (1, from
`save_or_update`'s `_die(..., 1)`) equals the usage-error exit code (1, from
`main`'s `sys.exit(1)` on a missing subcommand), so the three failure
classes do not each exit with a different code. -/
theorem exit_code_save_equals_usage_counterexample :
    (executar_fluxo_fechamento srvSave1Fail 5001 none 4 "E" 13 6 "s" "c").2 = some 1
    ∧ close_main_usage ["close.py"] = some 1 :=
  ⟨rfl, rfl⟩

/-- C9 (amended): the close CLI exits 0 on success and authentication
failure exits 2, distinct from save failure's exit 1 — but a usage error
also exits 1, the same code as a save failure, so only the authentication
class has a code of its own. -/
theorem exit_codes_auth_distinct_save_shared_with_usage (srv : CitServer) (tid : Int)
    (wia : Option Int) (sid : Int) (af : String) (ics ici : Int) (sol cau : String)
    (argv : List String) (tr : List ROp) (ec : Option Nat)
    (h : executar_fluxo_fechamento srv tid wia sid af ics ici sol cau = (tr, ec))
    (hargv : argv.length < 2) :
    (ec = none → processExitCode (tr, ec) = 0)
    ∧ (srv.loginOk = false → ec = some 2)
    ∧ (reachesFirstSave srv wia → srv.save1Status ≠ 200 → ec = some 1)
    ∧ close_main_usage argv = some 1
    ∧ (2 : Nat) ≠ 1 := by
  refine ⟨?_, ?_, ?_, by simp [close_main_usage, hargv], by decide⟩
  all_goals
    (simp only [executar_fluxo_fechamento] at h
     repeat' split at h)
  all_goals (injection h with h1 h2; subst h1; subst h2)
  all_goals intro hx
  all_goals try intro hy
  all_goals simp_all [processExitCode, reachesFirstSave]
  all_goals (cases wia <;> simp_all)

/-- Witness for C9 (amended): authentication failure exits 2 while a usage
error exits 1. -/
theorem exit_codes_auth_distinct_save_shared_with_usage_witness :
    (executar_fluxo_fechamento srvAuthFail 5001 none 4 "E" 13 6 "s" "c").2 = some 2
    ∧ close_main_usage ["close.py"] = some 1 := by
  have h := exit_codes_auth_distinct_save_shared_with_usage srvAuthFail 5001 none
    4 "E" 13 6 "s" "c" ["close.py"]
    (executar_fluxo_fechamento srvAuthFail 5001 none 4 "E" 13 6 "s" "c").1
    (executar_fluxo_fechamento srvAuthFail 5001 none 4 "E" 13 6 "s" "c").2 rfl (by decide)
  exact ⟨h.2.1 rfl, h.2.2.2.1⟩

/-- `findSome?` returns `none` when the function returns `none` on every
element. -/
theorem findSome_of_forall_none {α β : Type} (f : α → Option β) (l : List α)
    (h : ∀ x ∈ l, f x = none) : l.findSome? f = none := by
  induction l with
  | nil => rfl
  | cons a l ih =>
      rw [List.findSome?_cons, h a (List.mem_cons_self a l)]
      exact ih (fun x hx => h x (List.mem_cons_of_mem a hx))

/-- `findSome?` returns the value of the first element on which the function
succeeds. -/
theorem findSome_first_match {α β : Type} (f : α → Option β) (pre : List α) (p : α)
    (rest : List α) (b : β) (hn : ∀ q ∈ pre, f q = none) (hp : f p = some b) :
    (pre ++ p :: rest).findSome? f = some b := by
  induction pre with
  | nil => simp [List.findSome?_cons, hp]
  | cons a l ih =>
      rw [List.cons_append, List.findSome?_cons, hn a (List.mem_cons_self a l)]
      exact ih (fun q hq => hn q (List.mem_cons_of_mem a hq))

/-- C8: the ticket-number extraction of `salvar_meus_pedidos` tries the
structured field names in order (`ticketNumber`, `ticket`, `number`, `id`):
the first present (and truthy) field wins; when the body is not JSON it
scans the text with the prioritized pattern list, the first matching pattern
winning; and when no field is present or no pattern matches it reports the
ticket number as unknown (`none`) instead of failing — the extraction is a
total function. -/
theorem ticket_extraction_ordered_policy :
    (∀ fields v, jsonLookup fields "ticketNumber" = some v → jtruthy v = true →
        salvar_meus_pedidos_extract (RBody.jsonBody fields) = some v)
    ∧ (∀ fields v, jsonLookup fields "ticketNumber" = none →
        jsonLookup fields "ticket" = some v → jtruthy v = true →
        salvar_meus_pedidos_extract (RBody.jsonBody fields) = some v)
    ∧ (∀ fields v, jsonLookup fields "ticketNumber" = none →
        jsonLookup fields "ticket" = none → jsonLookup fields "number" = some v →
        jtruthy v = true →
        salvar_meus_pedidos_extract (RBody.jsonBody fields) = some v)
    ∧ (∀ fields v, jsonLookup fields "ticketNumber" = none →
        jsonLookup fields "ticket" = none → jsonLookup fields "number" = none →
        jsonLookup fields "id" = some v → jtruthy v = true →
        salvar_meus_pedidos_extract (RBody.jsonBody fields) = some v)
    ∧ (∀ fields, jsonLookup fields "ticketNumber" = none →
        jsonLookup fields "ticket" = none → jsonLookup fields "number" = none →
        jsonLookup fields "id" = none →
        salvar_meus_pedidos_extract (RBody.jsonBody fields) = none)
    ∧ (∀ (s : String) (pre rest : List RE) (p : RE) (t : String),
        patterns = pre ++ p :: rest → (∀ q ∈ pre, reSearch q s = none) →
        reSearch p s = some t →
        salvar_meus_pedidos_extract (RBody.textBody s) = some (JVal.jstr t))
    ∧ (∀ s : String, (∀ p ∈ patterns, reSearch p s = none) →
        salvar_meus_pedidos_extract (RBody.textBody s) = none) := by
  refine ⟨?_, ?_, ?_, ?_, ?_, ?_, ?_⟩
  · intro fields v h hv
    simp [salvar_meus_pedidos_extract, pickTicketField, h, hv]
  · intro fields v h0 h hv
    simp [salvar_meus_pedidos_extract, pickTicketField, h0, h, hv]
  · intro fields v h0 h1 h hv
    simp [salvar_meus_pedidos_extract, pickTicketField, h0, h1, h, hv]
  · intro fields v h0 h1 h2 h hv
    simp [salvar_meus_pedidos_extract, pickTicketField, h0, h1, h2, h, hv]
  · intro fields h0 h1 h2 h3
    simp [salvar_meus_pedidos_extract, pickTicketField, h0, h1, h2, h3]
  · intro s pre rest p t hpat hnone hp
    simp only [salvar_meus_pedidos_extract, extract_text, hpat]
    rw [findSome_first_match _ pre p rest t hnone hp]
    rfl
  · intro s hall
    simp [salvar_meus_pedidos_extract, extract_text,
      findSome_of_forall_none _ patterns hall]

/-- Witness for C8: a JSON body whose `ticketNumber` field holds the ticket
number. -/
theorem ticket_extraction_ordered_policy_witness :
    salvar_meus_pedidos_extract (RBody.jsonBody [("ticketNumber", JVal.jstr "52606")]) =
      some (JVal.jstr "52606") :=
  ticket_extraction_ordered_policy.1 [("ticketNumber", JVal.jstr "52606")]
    (JVal.jstr "52606") (by decide) (by decide)

/-- A message that is all digits never matches `TICKET_RE` (its literal key
starts with a non-digit). -/
theorem ticketSearch_all_digits (cs : List Char) (h : cs.all Char.isDigit = true) :
    ticketSearch cs = none := by
  induction cs with
  | nil => rfl
  | cons c rest ih =>
      simp only [List.all_cons, Bool.and_eq_true] at h
      have hc : tryMatchAt (c :: rest) = none := by
        have hne : ¬ (c = 'C') := by
          intro he
          subst he
          exact absurd h.1 (by decide)
        simp [tryMatchAt, keyChars, stripLit, hne]
      simp [ticketSearch, hc, ih h.2]

/-- One step of `TICKET_RE.search`: a position with no anchored match is
skipped. -/
theorem ticketSearch_step (c : Char) (cs : List Char) (h : tryMatchAt (c :: cs) = none) :
    ticketSearch (c :: cs) = ticketSearch cs := by
  simp [ticketSearch, h]

/-- The closure-acknowledgement message `CITSmartTicketClosed=<digits>` never
matches `TICKET_RE` at any position. -/
theorem closure_ack_no_match (d : List Char) (h : d.all Char.isDigit = true) :
    ticketSearch ("CITSmartTicketClosed=".toList ++ d) = none := by
  have hpre : "CITSmartTicketClosed=".toList =
      ['C', 'I', 'T', 'S', 'm', 'a', 'r', 't', 'T', 'i', 'c', 'k', 'e', 't',
       'C', 'l', 'o', 's', 'e', 'd', '='] := rfl
  rw [hpre]
  simp only [List.cons_append, List.nil_append]
  repeat rw [ticketSearch_step _ _ (by simp [tryMatchAt, keyChars, stripLit])]
  exact ticketSearch_all_digits d h

/-- An event all of whose acknowledgements are closure acknowledgements
yields no ticket marker. -/
theorem closure_acks_extract_none (ev : ZEvent) (h : closureAcksOnly ev) :
    extract_ticket_from_acks ev = none := by
  unfold extract_ticket_from_acks
  apply findSome_of_forall_none
  intro a ha
  obtain ⟨d, hd, hm⟩ := h a ha
  rw [hm]
  exact closure_ack_no_match d hd

/-- C10: the acknowledgement `CITSmartTicketClosed=<id>` appended after a
successful close never matches the ticket-marker pattern
`CITSmartTicketID\s*=\s*(\d+)`: the search fails on every such message, an
event carrying only closure acknowledgements yields no marker, and on a
Zabbix server all of whose events carry only closure acknowledgements,
`find_ticket_for_zabbix_event` never returns a ticket id. -/
theorem closure_ack_never_matches_ticket_marker :
    (∀ d : List Char, d.all Char.isDigit = true →
        ticketSearch ("CITSmartTicketClosed=".toList ++ d) = none)
    ∧ (∀ ev : ZEvent, closureAcksOnly ev → extract_ticket_from_acks ev = none)
    ∧ (∀ (srv : ZabbixServer) (eid : String),
        (∀ t evs, srv.eventQuery t = some evs → ∀ ev ∈ evs, closureAcksOnly ev) →
        (∀ t evs, srv.problemQuery t = some evs → ∀ ev ∈ evs, closureAcksOnly ev) →
        (find_ticket_for_zabbix_event srv eid).1 = none) := by
  refine ⟨closure_ack_no_match, closure_acks_extract_none, ?_⟩
  intro srv eid h1 h2
  cases hq : srv.eventQuery eid with
  | none => simp [find_ticket_for_zabbix_event, get_event_with_acks, hq]
  | some evs =>
      cases evs with
      | nil => simp [find_ticket_for_zabbix_event, get_event_with_acks, hq]
      | cons e es =>
          have hge : get_event_with_acks srv eid = some e := by
            simp [get_event_with_acks, hq]
          have hext : extract_ticket_from_acks e = none :=
            closure_acks_extract_none e (h1 eid (e :: es) hq e (List.mem_cons_self e es))
          by_cases ho : e.objectid = ""
          · simp [find_ticket_for_zabbix_event, hge, hext, ho]
          · cases hp : srv.problemQuery e.objectid with
            | none =>
                simp [find_ticket_for_zabbix_event, hge, hext, ho,
                  get_latest_problem_event_for_trigger, hp]
            | some pevs =>
                cases pevs with
                | nil =>
                    simp [find_ticket_for_zabbix_event, hge, hext, ho,
                      get_latest_problem_event_for_trigger, hp]
                | cons p ps =>
                    cases hf : (p :: ps).find?
                        (fun ev => (extract_ticket_from_acks ev).isSome) with
                    | none =>
                        have hpm : extract_ticket_from_acks p = none :=
                          closure_acks_extract_none p
                            (h2 e.objectid (p :: ps) hp p (List.mem_cons_self p ps))
                        simp [find_ticket_for_zabbix_event, hge, hext, ho,
                          get_latest_problem_event_for_trigger, hp, hf, hpm]
                    | some q =>
                        have hqm : extract_ticket_from_acks q = none :=
                          closure_acks_extract_none q
                            (h2 e.objectid (p :: ps) hp q (List.mem_of_find?_eq_some hf))
                        simp [find_ticket_for_zabbix_event, hge, hext, ho,
                          get_latest_problem_event_for_trigger, hp, hf, hqm]

/-- Witness for C10: the closure acknowledgement for ticket 5001 carries no
ticket marker. -/
theorem closure_ack_never_matches_ticket_marker_witness :
    ticketSearch ("CITSmartTicketClosed=".toList ++ ['5', '0', '0', '1']) = none :=
  closure_ack_never_matches_ticket_marker.1 ['5', '0', '0', '1'] (by decide)
